import Mathlib

/-!
Shallow embedding of `src/serve.rs` (the serving core of the `trunk` dev
server): the live-reload broadcast channel and its websocket handler
`handle_ws`, the router builder `router`, the `ServeSystem::run` lifecycle,
the shutdown future in `ServeSystem::spawn_server`, and the operator-facing
listening-address display.  Rust `&str`/`String` values that the claims
reason about structurally are modelled as `List Char`; machine integers that
only ever hold small values (IPv4 octets, event counts) are modelled as `Nat`.
-/

/-- Rust string slices, modelled as lists of characters. -/
abbrev RStr := List Char

/-! ## Broadcast channel (tokio::sync::broadcast) semantics

The live-reload channel is created in `ServeSystem::new` as
`broadcast::channel(8)`.  A sender state is the total number of values ever
sent (`emitted`) plus whether any sender is still alive; a receiver is a
cursor `pos` into the emission sequence, initialised at subscription time to
the current `emitted` (late subscribers do not see past values).  `recv`:

* if values are pending and the receiver is at most `capacity` behind, it
  returns the next value and advances;
* if it is further behind, it returns `Err(Lagged)` and the cursor jumps to
  the oldest retained value;
* if nothing is pending it blocks while a sender is alive, and returns
  `Err(Closed)` once all senders are dropped. -/

/-- Capacity of the `build_done_chan` created in `ServeSystem::new`:
`broadcast::channel(8)`. -/
def buildDoneCapacity : Nat := 8

/-- Outcome of one `Receiver::recv` poll. -/
inductive RecvResult where
  | ok (newPos : Nat)
  | lagged (newPos : Nat)
  | closed
  | pending
deriving DecidableEq

/-- One `recv` on a broadcast receiver at cursor `pos`, against a sender that
has emitted `emitted` values and is alive iff `senderAlive`. -/
def broadcastRecv (emitted : Nat) (senderAlive : Bool) (pos : Nat) : RecvResult :=
  if pos < emitted then
    if emitted - pos ≤ buildDoneCapacity then .ok (pos + 1)
    else .lagged (emitted - buildDoneCapacity)
  else if senderAlive then .pending
  else .closed

/-! ## The reload websocket handler `handle_ws`

```rust
async fn handle_ws(mut ws: WebSocket, state: Arc<State>) {
    let mut rx = state.build_done_chan.subscribe();
    while tokio::select! {
        _ = ws.recv() => { return }
        build_done = rx.recv() => build_done.is_ok(),
    } {
        let ws_send = ws.send(Message::Text(r#"..."#.to_owned()));
        if ws_send.await.is_err() { break; }
    }
}
```

We model the handler per connection as a state machine driven by a schedule
of scheduler actions: an event emission on the channel, the drop of the last
sender, the completion of `ws.recv()` (any inbound client message or
disconnect), or the completion of `rx.recv()` together with the success or
failure of the subsequent `ws.send`. -/

/-- The exact text payload the handler sends per reload event. -/
def reloadPayload : String := "\x7b\"reload\": true\x7d"

/-- Connection-side state of `handle_ws`: open with the receiver cursor, or
terminated (the function returned or broke out of its loop). -/
inductive WsConn where
  | connOpen (pos : Nat)
  | connClosed
deriving DecidableEq

/-- Global state of one reload connection together with the channel. -/
structure WsRun where
  conn : WsConn
  emitted : Nat
  senderAlive : Bool
  /-- Text messages the handler has written to the socket, oldest first. -/
  sent : List String
deriving DecidableEq

/-- One scheduler action against a reload connection. -/
inductive WsAction where
  /-- A build finishes: the watch system sends one value on `build_done_chan`. -/
  | emit
  /-- The last `build_done_chan` sender is dropped. -/
  | dropSender
  /-- The `ws.recv()` arm of the `select!` completes: the client sent any
  message or disconnected. -/
  | clientMsg
  /-- The `rx.recv()` arm of the `select!` completes (when ready); `sendOk`
  tells whether the following `ws.send` succeeds. -/
  | chanRecv (sendOk : Bool)
deriving DecidableEq

/-- One step of `handle_ws` under a scheduler action, mirroring the `select!`
loop body. -/
def wsStep (s : WsRun) (a : WsAction) : WsRun :=
  match a with
  | .emit => { s with emitted := s.emitted + 1 }
  | .dropSender => { s with senderAlive := false }
  | .clientMsg =>
    match s.conn with
    | .connOpen _ => { s with conn := .connClosed }
    | .connClosed => s
  | .chanRecv sendOk =>
    match s.conn with
    | .connClosed => s
    | .connOpen pos =>
      match broadcastRecv s.emitted s.senderAlive pos with
      | .ok newPos =>
        if sendOk then { s with conn := .connOpen newPos, sent := s.sent ++ [reloadPayload] }
        else { s with conn := .connClosed, sent := s.sent ++ [reloadPayload] }
      | .lagged _ => { s with conn := .connClosed }
      | .closed => { s with conn := .connClosed }
      | .pending => s

/-- Run a schedule of actions from a state. -/
def wsRun (s : WsRun) : List WsAction → WsRun
  | [] => s
  | a :: rest => wsRun (wsStep s a) rest

/-- State right after `handle_ws` subscribes: `subscribe` starts the receiver
cursor at the number of values emitted so far, the connection is open, and
nothing has been sent on it. -/
def wsInit (preEvents : Nat) (alive : Bool) : WsRun :=
  { conn := .connOpen preEvents, emitted := preEvents, senderAlive := alive, sent := [] }

/-! ## Router builder `router` -/

/-- Rust `str::strip_suffix(c)` for a one-character pattern: removes `c` from
the end when present, otherwise `none`. -/
def rstrStripSuffix (s : RStr) (c : Char) : Option RStr :=
  if s.getLast? = some c then some s.dropLast else none

/-- Mount point of the static-asset service, from `router`:

```rust
let public_route = if state.public_url == "/" { &state.public_url }
    else { state.public_url.strip_suffix('/').unwrap_or(&state.public_url) };
``` -/
def publicRoute (public_url : RStr) : RStr :=
  if public_url = ['/'] then public_url
  else (rstrStripSuffix public_url '/').getD public_url

/-- One entry of the list-form proxy configuration (`cfg.proxies`). -/
structure ProxyConfig where
  backend : RStr
  rewrite : Option RStr
  ws : Bool
  insecure : Bool
deriving DecidableEq

/-- The slice of `RtcServe` that `router` and `spawn_server` read. -/
structure RtcServe where
  public_url : RStr
  proxy_backend : Option RStr
  proxy_rewrite : Option RStr
  proxy_ws : Bool
  proxy_insecure : Bool
  proxies : Option (List ProxyConfig)
  no_autoreload : Bool
  /-- Whether `cfg.tls` is `Some`. -/
  tls : Bool
deriving DecidableEq

/-- Which of the two reqwest clients a proxy handler is given. -/
inductive ClientKind where
  | secure
  | insecure
deriving DecidableEq

/-- A route registered on the axum router. -/
inductive Route where
  /-- The static-asset fallback service, nested at the mount point. -/
  | staticAssets (mount : RStr)
  /-- The fixed reload endpoint. -/
  | reloadWs
  /-- An HTTP proxy route (`ProxyHandlerHttp::new(client, backend, rewrite)`). -/
  | proxyHttp (client : ClientKind) (backend : RStr) (rewrite : Option RStr)
  /-- A websocket proxy route (`ProxyHandlerWebSocket::new(backend, rewrite)`). -/
  | proxyWs (backend : RStr) (rewrite : Option RStr)
deriving DecidableEq

/-- The fixed path of the reload endpoint registered by `router`. -/
def reloadWsPath : RStr := '/' :: '_' :: 't' :: 'r' :: 'u' :: 'n' :: 'k' :: '/' :: 'w' :: 's' :: []

/-- Route built from one list-form proxy entry (loop body of `router`). -/
def proxyRouteOfEntry (p : ProxyConfig) : Route :=
  if p.ws then .proxyWs p.backend p.rewrite
  else .proxyHttp (if p.insecure then .insecure else .secure) p.backend p.rewrite

/-- The router composition, as the ordered list of registered routes.  The
static fallback and the reload endpoint are registered first; then, mirroring
the source, the single-entry form `cfg.proxy_backend` is consulted and, only
when it is absent, the list form `cfg.proxies`. -/
def router (cfg : RtcServe) : List Route :=
  let base := [Route.staticAssets (publicRoute cfg.public_url), Route.reloadWs]
  match cfg.proxy_backend with
  | some backend =>
    if cfg.proxy_ws then base ++ [Route.proxyWs backend cfg.proxy_rewrite]
    else
      base ++ [Route.proxyHttp (if cfg.proxy_insecure then .insecure else .secure)
        backend cfg.proxy_rewrite]
  | none =>
    match cfg.proxies with
    | some proxies => base ++ proxies.map proxyRouteOfEntry
    | none => base

/-! ## `ServeSystem::run` lifecycle -/

/-- Observable lifecycle steps of `ServeSystem::run`, in execution order. -/
inductive LifeStep where
  /-- `let _build_res = self.watch.build().await` ran to completion. -/
  | initialBuild
  /-- `tokio::spawn(self.watch.run())`. -/
  | spawnWatch
  /-- `Self::spawn_server(..).await?` succeeded. -/
  | spawnServer
  /-- `open::that(self.http_addr)` was attempted. -/
  | openBrowser
  /-- `drop(self.shutdown_tx)`. -/
  | dropShutdownTx
  /-- `watch_handle.await` completed (result logged, not propagated). -/
  | joinWatch
  /-- `server_handle.await` completed (result logged, not propagated). -/
  | joinServer
deriving DecidableEq

/-- Model of `ServeSystem::run`.  Inputs are the outcomes of the awaited
external effects: the initial build result (ignored by the source —
`let _build_res`), the result of `spawn_server` (propagated with `?`),
whether opening the browser succeeds (failure only logged), and the join
results of the two spawned tasks (`Err` when the task panicked or was
cancelled; both only logged).  Returns the emitted step trace and the
function's return value. -/
def runModel (openFlag : Bool) (buildRes : Except String Unit)
    (spawnRes : Except String Unit) (browserOk : Bool)
    (watchJoin : Except String Unit) (serverJoin : Except String Unit) :
    List LifeStep × Except String Unit :=
  let trace := [LifeStep.initialBuild, LifeStep.spawnWatch]
  match spawnRes with
  | .error e => (trace, .error e)
  | .ok _ =>
    let trace := trace ++ [LifeStep.spawnServer]
    let trace := if openFlag then trace ++ [LifeStep.openBrowser] else trace
    (trace ++ [LifeStep.dropShutdownTx, LifeStep.joinWatch, LifeStep.joinServer], .ok ())

/-! ## Shutdown future in `ServeSystem::spawn_server`

```rust
let shutdown_fut = async move {
    let _res = shutdown_rx.recv().await;
    handle_clone.graceful_shutdown(Some(Duration::from_secs(0)));
};
```

In TLS mode this future is spawned and drives `Handle::graceful_shutdown`
with a zero-second grace; in plaintext mode the very same future is the
argument of `Server::with_graceful_shutdown`. -/

/-- How the network server is told to stop accepting connections. -/
inductive ServerShutdown where
  /-- TLS mode: `handle.graceful_shutdown(Some(0s))`. -/
  | tlsGraceful (graceSecs : Nat)
  /-- Plaintext mode: completion of the `with_graceful_shutdown` future. -/
  | plainGraceful
deriving DecidableEq

/-- One poll of the shutdown future: it fires as soon as `recv` on the
shutdown channel completes with ANY result (a value, a lag error, or the
closed error produced by dropping the last sender — the source binds it to
`_res`), and then performs the mode's graceful shutdown. -/
def shutdownFutureStep (tls : Bool) (emitted : Nat) (senderAlive : Bool) (pos : Nat) :
    Option ServerShutdown :=
  match broadcastRecv emitted senderAlive pos with
  | .pending => none
  | _ => some (if tls then .tlsGraceful 0 else .plainGraceful)

/-! ## Listening-address display in `ServeSystem::spawn_server` -/

/-- An IPv4 address as its four octets. -/
structure Ipv4Addr where
  oct1 : Nat
  oct2 : Nat
  oct3 : Nat
  oct4 : Nat
deriving DecidableEq

/-- Rust `Ipv4Addr::LOCALHOST` (127.0.0.1). -/
def Ipv4Addr.localhost : Ipv4Addr := ⟨127, 0, 0, 1⟩

/-- Rust `Ipv4Addr::is_loopback`: first octet 127. -/
def Ipv4Addr.is_loopback (ip : Ipv4Addr) : Bool := ip.oct1 = 127

/-- Rust `Ipv4Addr::is_private`: 10.0.0.0/8, 172.16.0.0/12 or 192.168.0.0/16. -/
def Ipv4Addr.is_private (ip : Ipv4Addr) : Bool :=
  ip.oct1 = 10 ∨ (ip.oct1 = 172 ∧ 16 ≤ ip.oct2 ∧ ip.oct2 ≤ 31) ∨ (ip.oct1 = 192 ∧ ip.oct2 = 168)

/-- An interface address as returned by `list_afinet_netifas`. -/
inductive IpAddrModel where
  | v4 (ip : Ipv4Addr)
  | v6
deriving DecidableEq

/-- The address list logged when `addr.ip().is_unspecified()`:

```rust
local_ip_address::list_afinet_netifas()
    .map(|addrs| addrs.into_iter()
        .filter_map(|(_, ipaddr)| match ipaddr {
            IpAddr::V4(ip) if ip.is_private() || ip.is_loopback() => Some(ip),
            _ => None,
        }).collect())
    .unwrap_or_else(|_| vec![Ipv4Addr::LOCALHOST]);
```

`netifas` is `none` when the enumeration itself fails. -/
def displayAddresses (netifas : Option (List (String × IpAddrModel))) : List Ipv4Addr :=
  match netifas with
  | none => [Ipv4Addr.localhost]
  | some addrs =>
    addrs.filterMap fun p =>
      match p.2 with
      | .v4 ip => if ip.is_private || ip.is_loopback then some ip else none
      | .v6 => none

/-! ## Helper lemmas -/

theorem wsStep_closed (s : WsRun) (a : WsAction) (h : s.conn = .connClosed) :
    (wsStep s a).conn = .connClosed ∧ (wsStep s a).sent = s.sent := by
  obtain ⟨c, e, al, ms⟩ := s
  cases c with
  | connOpen p => simp at h
  | connClosed => cases a <;> simp [wsStep]

theorem wsRun_closed (σ : List WsAction) :
    ∀ s : WsRun, s.conn = .connClosed →
      (wsRun s σ).conn = .connClosed ∧ (wsRun s σ).sent = s.sent := by
  induction σ with
  | nil => exact fun s h => ⟨h, rfl⟩
  | cons a rest ih =>
    intro s h
    have hs := wsStep_closed s a h
    have hr := ih (wsStep s a) hs.1
    exact ⟨hr.1, hr.2.trans hs.2⟩

theorem wsRun_open_replicate (p : Nat) (σ : List WsAction) :
    ∀ (pos e : Nat) (al : Bool), p ≤ pos →
      (wsRun ⟨.connOpen pos, e, al, List.replicate (pos - p) reloadPayload⟩ σ).conn
        = .connOpen ((wsRun ⟨.connOpen pos, e, al, List.replicate (pos - p) reloadPayload⟩ σ).emitted) →
      (wsRun ⟨.connOpen pos, e, al, List.replicate (pos - p) reloadPayload⟩ σ).sent
        = List.replicate
            ((wsRun ⟨.connOpen pos, e, al, List.replicate (pos - p) reloadPayload⟩ σ).emitted - p)
            reloadPayload := by
  induction σ with
  | nil =>
    intro pos e al hp hfin
    simp only [wsRun] at hfin ⊢
    have : pos = e := by simpa using hfin
    simp [this]
  | cons a rest ih =>
    intro pos e al hp hfin
    simp only [wsRun] at hfin ⊢
    cases a with
    | emit => exact ih pos (e + 1) al hp hfin
    | dropSender => exact ih pos e false hp hfin
    | clientMsg =>
      have hc := (wsRun_closed rest ⟨.connClosed, e, al, List.replicate (pos - p) reloadPayload⟩ rfl).1
      rw [show wsStep ⟨.connOpen pos, e, al, List.replicate (pos - p) reloadPayload⟩ .clientMsg
          = ⟨.connClosed, e, al, List.replicate (pos - p) reloadPayload⟩ from rfl] at hfin
      rw [hc] at hfin
      simp at hfin
    | chanRecv b =>
      by_cases h1 : pos < e
      · by_cases h2 : e - pos ≤ buildDoneCapacity
        · have hb : broadcastRecv e al pos = .ok (pos + 1) := by
            simp [broadcastRecv, h1, h2]
          cases b with
          | true =>
            rw [show wsStep ⟨.connOpen pos, e, al, List.replicate (pos - p) reloadPayload⟩
                  (.chanRecv true)
                = ⟨.connOpen (pos + 1), e, al,
                    List.replicate (pos - p) reloadPayload ++ [reloadPayload]⟩ from by
              simp [wsStep, hb]] at hfin ⊢
            rw [show List.replicate (pos - p) reloadPayload ++ [reloadPayload]
                = List.replicate (pos + 1 - p) reloadPayload from by
              rw [← List.replicate_succ']
              congr 1
              omega] at hfin ⊢
            exact ih (pos + 1) e al (by omega) hfin
          | false =>
            rw [show wsStep ⟨.connOpen pos, e, al, List.replicate (pos - p) reloadPayload⟩
                  (.chanRecv false)
                = ⟨.connClosed, e, al,
                    List.replicate (pos - p) reloadPayload ++ [reloadPayload]⟩ from by
              simp [wsStep, hb]] at hfin
            rw [(wsRun_closed rest _ rfl).1] at hfin
            simp at hfin
        · have hb : broadcastRecv e al pos = .lagged (e - buildDoneCapacity) := by
            simp [broadcastRecv, h1, h2]
          rw [show wsStep ⟨.connOpen pos, e, al, List.replicate (pos - p) reloadPayload⟩
                (.chanRecv b)
              = ⟨.connClosed, e, al, List.replicate (pos - p) reloadPayload⟩ from by
            simp [wsStep, hb]] at hfin
          rw [(wsRun_closed rest _ rfl).1] at hfin
          simp at hfin
      · cases al with
        | true =>
          have hb : broadcastRecv e true pos = .pending := by
            simp [broadcastRecv, h1]
          rw [show wsStep ⟨.connOpen pos, e, true, List.replicate (pos - p) reloadPayload⟩
                (.chanRecv b)
              = ⟨.connOpen pos, e, true, List.replicate (pos - p) reloadPayload⟩ from by
            simp [wsStep, hb]] at hfin ⊢
          exact ih pos e true hp hfin
        | false =>
          have hb : broadcastRecv e false pos = .closed := by
            simp [broadcastRecv, h1]
          rw [show wsStep ⟨.connOpen pos, e, false, List.replicate (pos - p) reloadPayload⟩
                (.chanRecv b)
              = ⟨.connClosed, e, false, List.replicate (pos - p) reloadPayload⟩ from by
            simp [wsStep, hb]] at hfin
          rw [(wsRun_closed rest _ rfl).1] at hfin
          simp at hfin

/-! ## Claim theorems -/

/-- C1 (amended): on a reload connection whose handler, after running an
arbitrary schedule from subscription, is still open and has caught up with
the channel (so its receiver never overflowed the 8-event buffer, the client
sent nothing, and every send succeeded — any of those would have closed it),
the messages written to the socket are exactly one `reloadPayload` text
message per event emitted after subscription, in emission order; the `p`
events emitted before subscription contribute none. -/
theorem reload_exactly_one_message_per_event (p : Nat) (σ : List WsAction)
    (h : (wsRun (wsInit p true) σ).conn = .connOpen ((wsRun (wsInit p true) σ).emitted)) :
    (wsRun (wsInit p true) σ).sent =
      List.replicate ((wsRun (wsInit p true) σ).emitted - p) reloadPayload := by
  have hinit : wsInit p true
      = (⟨.connOpen p, p, true, List.replicate (p - p) reloadPayload⟩ : WsRun) := by
    simp [wsInit]
  rw [hinit] at h ⊢
  exact wsRun_open_replicate p σ p p true le_rfl h

/-- C1 witness: a connection subscribing after one event, then observing
three events interleaved with three receives, ends open, caught up, and with
exactly three payload messages sent. -/
theorem reload_exactly_one_message_per_event_witness :
    (wsRun (wsInit 1 true)
        [.emit, .chanRecv true, .emit, .emit, .chanRecv true, .chanRecv true]).conn
      = .connOpen ((wsRun (wsInit 1 true)
        [.emit, .chanRecv true, .emit, .emit, .chanRecv true, .chanRecv true]).emitted) ∧
    (wsRun (wsInit 1 true)
        [.emit, .chanRecv true, .emit, .emit, .chanRecv true, .chanRecv true]).sent
      = List.replicate ((wsRun (wsInit 1 true)
        [.emit, .chanRecv true, .emit, .emit, .chanRecv true, .chanRecv true]).emitted - 1)
          reloadPayload :=
  ⟨by decide, reload_exactly_one_message_per_event 1
    [.emit, .chanRecv true, .emit, .emit, .chanRecv true, .chanRecv true] (by decide)⟩

/-- C1 counterexample: nine events are emitted while the connection is open
and subscribed, the client never sends anything and never disconnects, and
every send would succeed; yet the handler sends no message at all and closes
the connection, because the ninth emission overflows the 8-slot buffer and
the resulting `Lagged` receive error ends the loop.  So it is false that
every event emitted while the connection is open produces exactly one
message. -/
theorem reload_lag_counterexample :
    (wsRun (wsInit 0 true) (List.replicate 9 .emit ++ [.chanRecv true])).emitted = 9 ∧
    (wsRun (wsInit 0 true) (List.replicate 9 .emit ++ [.chanRecv true])).sent = [] ∧
    (wsRun (wsInit 0 true) (List.replicate 9 .emit ++ [.chanRecv true])).conn = .connClosed := by
  decide

/-- C4: from an open reload connection, an inbound client message or
disconnect (the `ws.recv()` arm of the `select!`) closes the handler at once
without sending anything, and no schedule of later actions — events emitted
afterwards included — ever makes it send another message. -/
theorem client_message_closes_connection (pos emitted : Nat) (alive : Bool)
    (sent : List String) (σ : List WsAction) :
    (wsStep ⟨.connOpen pos, emitted, alive, sent⟩ .clientMsg).conn = .connClosed ∧
    (wsStep ⟨.connOpen pos, emitted, alive, sent⟩ .clientMsg).sent = sent ∧
    (wsRun (wsStep ⟨.connOpen pos, emitted, alive, sent⟩ .clientMsg) σ).conn = .connClosed ∧
    (wsRun (wsStep ⟨.connOpen pos, emitted, alive, sent⟩ .clientMsg) σ).sent = sent := by
  refine ⟨rfl, rfl, ?_, ?_⟩
  · exact (wsRun_closed σ ⟨.connClosed, emitted, alive, sent⟩ rfl).1
  · exact (wsRun_closed σ ⟨.connClosed, emitted, alive, sent⟩ rfl).2

/-- C5: in the open state, a ready receive with an available event sends the
payload and then stays open at the advanced cursor if the send succeeded, or
closes if the send failed; and when the channel has been disposed (no sender
left and nothing pending), the receive error ends the loop and closes the
connection without sending anything. -/
theorem open_state_recv_transitions (pos emitted : Nat) (alive : Bool)
    (sent : List String) (b : Bool) :
    (pos < emitted → emitted - pos ≤ buildDoneCapacity →
      wsStep ⟨.connOpen pos, emitted, alive, sent⟩ (.chanRecv b) =
        if b then ⟨.connOpen (pos + 1), emitted, alive, sent ++ [reloadPayload]⟩
        else ⟨.connClosed, emitted, alive, sent ++ [reloadPayload]⟩) ∧
    (¬ pos < emitted →
      wsStep ⟨.connOpen pos, emitted, false, sent⟩ (.chanRecv b) =
        ⟨.connClosed, emitted, false, sent⟩) := by
  constructor
  · intro h1 h2
    have hb : broadcastRecv emitted alive pos = .ok (pos + 1) := by
      simp [broadcastRecv, h1, h2]
    cases b <;> simp [wsStep, hb]
  · intro h1
    have hb : broadcastRecv emitted false pos = .closed := by
      simp [broadcastRecv, h1]
    simp [wsStep, hb]

/-- C5 witness: with one pending event the handler sends the payload and
stays open; with the channel disposed and drained it closes silently. -/
theorem open_state_recv_transitions_witness :
    (wsStep ⟨.connOpen 0, 1, true, []⟩ (.chanRecv true) =
      if true then (⟨.connOpen (0 + 1), 1, true, [] ++ [reloadPayload]⟩ : WsRun)
      else ⟨.connClosed, 1, true, [] ++ [reloadPayload]⟩) ∧
    wsStep ⟨.connOpen 2, 2, false, []⟩ (.chanRecv false) = ⟨.connClosed, 2, false, []⟩ :=
  ⟨(open_state_recv_transitions 0 1 true [] true).1 (by decide) (by decide),
   (open_state_recv_transitions 2 2 false [] false).2 (by decide)⟩

/-- C10: the live-reload broadcast channel is created with a fixed capacity
of 8 buffered events; the handler treats every receive error identically
(`build_done.is_ok()` is false both for `Closed` and for the `Lagged` error
raised when more than 8 events were outstanding), closing the connection
without sending; concretely, a connection that has not polled while 10
events were emitted is closed by the server with no message even though its
client neither sent anything nor disconnected. -/
theorem slow_receiver_lag_closes :
    buildDoneCapacity = 8 ∧
    (∀ (pos emitted : Nat) (alive : Bool) (sent : List String) (b : Bool),
      (broadcastRecv emitted alive pos = .closed ∨
        ∃ n, broadcastRecv emitted alive pos = .lagged n) →
      wsStep ⟨.connOpen pos, emitted, alive, sent⟩ (.chanRecv b) =
        ⟨.connClosed, emitted, alive, sent⟩) ∧
    (wsRun (wsInit 0 true) (List.replicate 10 .emit ++ [.chanRecv true])).conn = .connClosed ∧
    (wsRun (wsInit 0 true) (List.replicate 10 .emit ++ [.chanRecv true])).sent = [] := by
  refine ⟨rfl, ?_, by decide, by decide⟩
  intro pos emitted alive sent b h
  rcases h with h | ⟨n, h⟩ <;> simp [wsStep, h]

/-- C10 witness: at nine outstanding events the receive lags and the step
closes the connection without a message. -/
theorem slow_receiver_lag_closes_witness :
    wsStep ⟨.connOpen 0, 9, true, []⟩ (.chanRecv true) = ⟨.connClosed, 9, true, []⟩ :=
  slow_receiver_lag_closes.2.1 0 9 true [] true (Or.inr ⟨1, by decide⟩)

/-- C2: whenever the single-entry proxy form `proxy_backend` is present, the
router registers exactly one proxy route derived from it (websocket or HTTP
variant per `proxy_ws`, insecure client per `proxy_insecure`) after the
static and reload routes, and the list-form `proxies` contributes nothing —
the router is the same as with `proxies` removed; when `proxy_backend` is
absent, one route is registered per list entry, in listed order. -/
theorem proxy_single_entry_precedence (cfg : RtcServe) :
    (∀ b, cfg.proxy_backend = some b →
      router cfg = [Route.staticAssets (publicRoute cfg.public_url), Route.reloadWs,
          proxyRouteOfEntry ⟨b, cfg.proxy_rewrite, cfg.proxy_ws, cfg.proxy_insecure⟩] ∧
      router cfg = router { cfg with proxies := none }) ∧
    (cfg.proxy_backend = none →
      router cfg = [Route.staticAssets (publicRoute cfg.public_url), Route.reloadWs] ++
        (cfg.proxies.getD []).map proxyRouteOfEntry) := by
  constructor
  · intro b hb
    constructor
    · cases hws : cfg.proxy_ws <;>
        simp [router, hb, proxyRouteOfEntry, hws]
    · simp [router, hb]
  · intro hb
    cases hp : cfg.proxies <;> simp [router, hb, hp]

/-- C2 witness: with both forms present only the single-entry route is
registered; with the single-entry form absent the list entry is. -/
theorem proxy_single_entry_precedence_witness :
    (router ⟨['/'], some ['b'], none, false, false,
        some [⟨['x'], none, true, false⟩], false, false⟩ =
      [Route.staticAssets (publicRoute ['/']), Route.reloadWs,
        proxyRouteOfEntry ⟨['b'], none, false, false⟩]) ∧
    (router ⟨['/'], none, none, false, false,
        some [⟨['x'], none, true, false⟩], false, false⟩ =
      [Route.staticAssets (publicRoute ['/']), Route.reloadWs] ++
        ((some [(⟨['x'], none, true, false⟩ : ProxyConfig)]).getD []).map proxyRouteOfEntry) :=
  ⟨((proxy_single_entry_precedence
      ⟨['/'], some ['b'], none, false, false,
        some [⟨['x'], none, true, false⟩], false, false⟩).1 ['b'] rfl).1,
   (proxy_single_entry_precedence
      ⟨['/'], none, none, false, false,
        some [⟨['x'], none, true, false⟩], false, false⟩).2 rfl⟩

/-- C8: the mount point of the static route is the public URL path prefix
with a single trailing slash stripped, except that the root prefix is used
unchanged: the root maps to itself, any prefix of the form `t ++ "/"` other
than the root maps to `t`, and a prefix with no trailing slash is unchanged. -/
theorem mount_point_normalization :
    publicRoute ['/'] = ['/'] ∧
    (∀ t : RStr, t ++ ['/'] ≠ ['/'] → publicRoute (t ++ ['/']) = t) ∧
    (∀ s : RStr, s.getLast? ≠ some '/' → publicRoute s = s) := by
  refine ⟨by decide, ?_, ?_⟩
  · intro t ht
    simp [publicRoute, ht, rstrStripSuffix]
  · intro s hs
    have hne : s ≠ ['/'] := by
      rintro rfl
      simp at hs
    simp [publicRoute, hne, rstrStripSuffix, hs]

/-- C8 witness: a one-segment prefix with a trailing slash is stripped to the
segment, and one without a trailing slash is unchanged. -/
theorem mount_point_normalization_witness :
    publicRoute (['a'] ++ ['/']) = ['a'] ∧ publicRoute ['a'] = ['a'] :=
  ⟨mount_point_normalization.2.1 ['a'] (by decide),
   mount_point_normalization.2.2 ['a'] (by decide)⟩

/-- C3: once all shutdown senders are gone (`senderAlive = false`), a poll of
the server's shutdown future always completes — `recv` yields a value, a lag
error, or the closed error, never pending — and performs the mode's graceful
shutdown: `graceful_shutdown(Some(0s))` on the TLS handle, completion of the
`with_graceful_shutdown` future in plaintext mode; and `ServeSystem::run`,
whose remaining awaits are the two task joins, then returns `Ok(())`. -/
theorem shutdown_sender_drop_observed (tls : Bool) (emitted pos : Nat)
    (openFlag browserOk : Bool) (buildRes watchJoin serverJoin : Except String Unit) :
    shutdownFutureStep tls emitted false pos =
      some (if tls then ServerShutdown.tlsGraceful 0 else ServerShutdown.plainGraceful) ∧
    (runModel openFlag buildRes (.ok ()) browserOk watchJoin serverJoin).2 = .ok () := by
  constructor
  · unfold shutdownFutureStep broadcastRecv
    by_cases h1 : pos < emitted
    · by_cases h2 : emitted - pos ≤ buildDoneCapacity <;> simp [h1, h2]
    · simp [h1]
  · cases openFlag <;> rfl

/-- C6: in `ServeSystem::run` the initial build is the first lifecycle step,
strictly before the watch task and the server task are spawned, and the run
is not gated on the build result: the whole trace and return value are the
same for any two build results. -/
theorem initial_build_first_and_ungated (openFlag browserOk : Bool)
    (b1 b2 spawnRes watchJoin serverJoin : Except String Unit) :
    runModel openFlag b1 spawnRes browserOk watchJoin serverJoin =
      runModel openFlag b2 spawnRes browserOk watchJoin serverJoin ∧
    (runModel openFlag b1 (.ok ()) browserOk watchJoin serverJoin).1.take 3 =
      [LifeStep.initialBuild, LifeStep.spawnWatch, LifeStep.spawnServer] := by
  refine ⟨rfl, ?_⟩
  cases openFlag <;> rfl

/-- C7: whatever the join results of the watch task and the server task —
including `Err` for a panicked or cancelled task — `ServeSystem::run`
returns `Ok(())`, and it does so only after both joins have happened: the
trace always ends with `joinWatch` then `joinServer`. -/
theorem run_ok_despite_join_failures (openFlag browserOk : Bool)
    (buildRes watchJoin serverJoin : Except String Unit) :
    (runModel openFlag buildRes (.ok ()) browserOk watchJoin serverJoin).2 = .ok () ∧
    ∃ pre, (runModel openFlag buildRes (.ok ()) browserOk watchJoin serverJoin).1 =
      pre ++ [LifeStep.joinWatch, LifeStep.joinServer] := by
  cases openFlag with
  | false =>
    exact ⟨rfl,
      ⟨[LifeStep.initialBuild, LifeStep.spawnWatch, LifeStep.spawnServer,
        LifeStep.dropShutdownTx], rfl⟩⟩
  | true =>
    exact ⟨rfl,
      ⟨[LifeStep.initialBuild, LifeStep.spawnWatch, LifeStep.spawnServer,
        LifeStep.openBrowser, LifeStep.dropShutdownTx], rfl⟩⟩

/-- C9: whatever the interface enumeration returns — any mix of IPv4 and
IPv6 addresses, or outright failure — every address in the displayed list is
a private-range or loopback IPv4 address (IPv6 addresses are filtered out by
construction, and the failure fallback is the loopback 127.0.0.1). -/
theorem display_addresses_private_or_loopback
    (netifas : Option (List (String × IpAddrModel))) (ip : Ipv4Addr)
    (h : ip ∈ displayAddresses netifas) :
    ip.is_private = true ∨ ip.is_loopback = true := by
  cases netifas with
  | none =>
    simp [displayAddresses] at h
    subst h
    right
    rfl
  | some addrs =>
    simp only [displayAddresses, List.mem_filterMap] at h
    obtain ⟨q, _, hf⟩ := h
    cases hq : q.2 with
    | v6 => rw [hq] at hf; simp at hf
    | v4 ip2 =>
      rw [hq] at hf
      have hf2 : (if (ip2.is_private || ip2.is_loopback) = true
          then some ip2 else none) = some ip := hf
      by_cases hc : (ip2.is_private || ip2.is_loopback) = true
      · have : ip2 = ip := by
          rw [if_pos hc] at hf2
          exact Option.some.inj hf2
        subst this
        rcases Bool.or_eq_true_iff.mp hc with hc2 | hc2
        · exact Or.inl hc2
        · exact Or.inr hc2
      · rw [if_neg hc] at hf2
        exact absurd hf2 (by simp)

/-- C9 witness: a private 192.168 address returned by the enumeration
appears in the display list and is indeed private or loopback. -/
theorem display_addresses_private_or_loopback_witness :
    (⟨192, 168, 1, 7⟩ : Ipv4Addr) ∈
      displayAddresses (some [("eth0", .v4 ⟨192, 168, 1, 7⟩)]) ∧
    ((⟨192, 168, 1, 7⟩ : Ipv4Addr).is_private = true ∨
      (⟨192, 168, 1, 7⟩ : Ipv4Addr).is_loopback = true) :=
  ⟨by decide, display_addresses_private_or_loopback
    (some [("eth0", .v4 ⟨192, 168, 1, 7⟩)]) ⟨192, 168, 1, 7⟩ (by decide)⟩
